import Mathlib

/-!
Shallow embedding of the rde streaming-ETL runtime, covering the dynamic
schema manager and JSON batch construction of the Kafka topic source
(crates/rde-io/src/source_kafka.rs), the schema-merge and type-promotion
logic of the topic-mapping manager (crates/rde-io/src/topic_mapping.rs),
the Iceberg table-format sink's commit path
(crates/rde-io/src/sink_iceberg.rs), and the Partition and SqlTransform
operators (crates/rde-tx/src/lib.rs).  Machine integers are modelled as
Int (no arithmetic in the embedded code can overflow an i64 on the inputs
considered), f64 payloads are carried exactly as Rat (no embedded code
performs float arithmetic; values are only moved or defaulted), and
external effects (object-store puts, clocks, UUIDs, the DataFusion SQL
engine, Kafka) are threaded as explicit inputs.
-/

namespace Rde

/-- Arrow TimeUnit, as used by DataType.Timestamp. -/
inductive TimeUnit
  | second
  | millisecond
  | microsecond
  | nanosecond
deriving DecidableEq, Repr

/-- Arrow logical data types.  Only the constructors the repository
manipulates are listed; the constructor DataType.other stands for every
remaining Arrow type, all of which the repository's code routes through
its catch-all match arms. -/
inductive DataType
  | int32
  | int64
  | float32
  | float64
  | boolean
  | utf8
  | binary
  | date32
  | timestamp (unit : TimeUnit) (tz : Option String)
  | list (itemName : String) (itemType : DataType) (itemNullable : Bool)
  | other
deriving DecidableEq, Repr

/-- Arrow Field: name, data type, nullable flag. -/
structure Field where
  name : String
  dataType : DataType
  nullable : Bool
deriving DecidableEq, Repr

/-- Arrow Schema: an ordered field list; equality is structural. -/
structure Schema where
  fields : List Field
deriving DecidableEq, Repr

/-- serde_json number representation: an unsigned 64-bit integer, a
negative 64-bit integer, or a finite double.  The double payload is kept
exactly as a rational; no embedded code computes with it. -/
inductive JNumber
  | posInt (n : Nat)
  | negInt (z : Int)
  | float (q : Rat)
deriving DecidableEq

/-- Largest i64 value, the bound serde_json uses for Number.is_i64 on a
positive integer. -/
def i64Max : Int := 9223372036854775807

/-- serde_json Number.is_i64: true for negative-integer storage, true for
positive-integer storage up to i64::MAX, false for float storage. -/
def JNumber.is_i64 : JNumber → Bool
  | .posInt n => (n : Int) ≤ i64Max
  | .negInt _ => true
  | .float _ => false

/-- serde_json Number.is_f64: true exactly for float storage. -/
def JNumber.is_f64 : JNumber → Bool
  | .float _ => true
  | _ => false

/-- serde_json Value.  Object entries are carried in the map's iteration
order; key uniqueness is a property of real maps, not enforced here. -/
inductive Json
  | null
  | bool (b : Bool)
  | num (n : JNumber)
  | str (s : String)
  | arr (elems : List Json)
  | obj (entries : List (String × Json))

/-- serde_json Value.is_null. -/
def Json.isNull : Json → Bool
  | .null => true
  | _ => false

/-- Association lookup, the model of map get for serde_json maps and Rust
HashMaps (first entry with the key; the insert model below keeps at most
one entry per key). -/
def alookup {α β : Type} [DecidableEq α] (k : α) : List (α × β) → Option β
  | [] => none
  | p :: rest => if p.1 = k then some p.2 else alookup k rest

/-- Rust HashMap::insert modelled on an association list: if the key is
present its entry is replaced in place, otherwise the pair is appended.
Iteration order of a real HashMap is unspecified; theorems about maps
built with this function only ever inspect them through alookup. -/
def hmInsert {α β : Type} [DecidableEq α] (m : List (α × β)) (k : α) (v : β) : List (α × β) :=
  if m.any (fun p => p.1 = k) then
    m.map (fun p => if p.1 = k then (k, v) else p)
  else
    m ++ [(k, v)]

mutual

/-- DynamicSchemaManager::infer_field_type (source_kafka.rs lines
142-170): map a JSON value to an Arrow type. -/
def infer_field_type : Json → DataType
  | .null => .utf8
  | .bool _ => .boolean
  | .num n => if n.is_i64 then .int64 else if n.is_f64 then .float64 else .utf8
  | .str _ => .utf8
  | .arr elems =>
      if elems.isEmpty then .utf8
      else .list "item" (inferFirstNonNull elems) true
  | .obj _ => .utf8

/-- Type of the first non-null element of an array, utf8 when there is
none: the find-then-infer step of the array arm of infer_field_type. -/
def inferFirstNonNull : List Json → DataType
  | [] => .utf8
  | .null :: rest => inferFirstNonNull rest
  | v :: _ => infer_field_type v

end

/-- DynamicSchemaManager::infer_schema (source_kafka.rs lines 128-139):
one nullable field per key of an object record; any other record yields
the empty schema. -/
def infer_schema (value : Json) : Schema :=
  match value with
  | .obj entries => ⟨entries.map fun kv => Field.mk kv.1 (infer_field_type kv.2) true⟩
  | _ => ⟨[]⟩

/-- TopicMappingManager::promote_field_type (topic_mapping.rs lines
180-188). -/
def promote_field_type (existing new : DataType) : DataType :=
  match existing, new with
  | .int32, .int64 => .int64
  | .float32, .float64 => .float64
  | .int32, .float64 => .float64
  | .int64, .float64 => .float64
  | _, _ => existing

/-- DynamicSchemaManager state (source_kafka.rs lines 84-99).  The
field_types map of the struct is never read by any code path and is
omitted. -/
structure DynamicSchemaManager where
  current_schema : Option Schema
  configured_schema : Option Schema
  auto_infer : Bool
deriving DecidableEq

/-- DynamicSchemaManager::update_schema_if_needed (source_kafka.rs lines
173-199); returns the updated manager and the bool the method returns. -/
def update_schema_if_needed (m : DynamicSchemaManager) (value : Json) :
    DynamicSchemaManager × Bool :=
  if !m.auto_infer then
    if m.current_schema.isNone && m.configured_schema.isSome then
      ({ m with current_schema := m.configured_schema }, true)
    else
      (m, false)
  else
    let new_schema := infer_schema value
    match m.current_schema with
    | some current =>
        if current.fields ≠ new_schema.fields then
          ({ m with current_schema := some new_schema }, true)
        else
          (m, false)
    | none => ({ m with current_schema := some new_schema }, true)

/-- DynamicSchemaManager::get_current_schema (source_kafka.rs lines
201-204). -/
def get_current_schema (m : DynamicSchemaManager) : Option Schema :=
  match m.current_schema with
  | some s => some s
  | none => m.configured_schema

/-- Sequence of schemas published by the manager over a record stream: the
current schema immediately after each call of update_schema_if_needed that
returns true. -/
def publishedSchemas (m : DynamicSchemaManager) : List Json → List Schema
  | [] => []
  | v :: rest =>
      let step := update_schema_if_needed m v
      let tail := publishedSchemas step.1 rest
      if step.2 then step.1.current_schema.getD ⟨[]⟩ :: tail else tail

/-- One iteration of the second loop of TopicMappingManager::merge_schemas
(topic_mapping.rs lines 163-173): insert a field of the new schema,
promoting the type when the name is already mapped. -/
def tm_merge_step (field_map : List (String × Field)) (field : Field) :
    List (String × Field) :=
  match alookup field.name field_map with
  | some existing_field =>
      hmInsert field_map field.name
        (Field.mk field.name
          (promote_field_type existing_field.dataType field.dataType)
          field.nullable)
  | none => hmInsert field_map field.name field

/-- TopicMappingManager::merge_schemas (topic_mapping.rs lines 153-177),
up to the final into_values collection: the field map after inserting the
existing schema's fields and then folding the new schema's fields through
tm_merge_step.  The Vec the Rust method returns lists this map's values in
an unspecified HashMap iteration order, so results are stated through
alookup only. -/
def tm_merge_schemas (current : Option Schema) (new_schema : Schema) :
    List (String × Field) :=
  let existing_fields : List Field := match current with
    | some c => c.fields
    | none => []
  let base := existing_fields.foldl (fun m (f : Field) => hmInsert m f.name f) []
  new_schema.fields.foldl tm_merge_step base

/-- Summary block of an Iceberg snapshot (sink_iceberg.rs lines 88-105). -/
structure IcebergSnapshotSummary where
  operation : String
  added_data_files : Int
  deleted_data_files : Int
  total_records : Int
  added_records : Int
  deleted_records : Int
  added_files_size : Int
  deleted_files_size : Int
deriving DecidableEq, Repr

/-- Iceberg snapshot (sink_iceberg.rs lines 77-86). -/
structure IcebergSnapshot where
  snapshot_id : Int
  parent_snapshot_id : Option Int
  sequence_number : Int
  timestamp_ms : Int
  manifest_list : String
  summary : IcebergSnapshotSummary
  schema_id : Int
deriving DecidableEq, Repr

/-- Entry of the snapshot log (sink_iceberg.rs lines 107-111). -/
structure IcebergSnapshotLogEntry where
  timestamp_ms : Int
  snapshot_id : Int
deriving DecidableEq, Repr

/-- Iceberg data-file record (sink_iceberg.rs lines 193-212), projected to
the fields the commit path reads; the statistics maps, split offsets and
equality ids are always created empty and never read, and are omitted. -/
structure IcebergDataFile where
  file_path : String
  file_format : String
  record_count : Int
  file_size_in_bytes : Int
deriving DecidableEq, Repr

/-- Iceberg table metadata (sink_iceberg.rs lines 22-45), projected to the
fields the commit path reads or writes; the configuration fields (format
version, uuid, location, schemas, partition specs, sort orders, properties,
refs, metadata log) are never touched after creation or load and are
omitted.  The snapshots map is carried as an association list inspected
through alookup. -/
structure IcebergTableMetadata where
  last_updated_ms : Int
  snapshots : List (Int × IcebergSnapshot)
  snapshot_log : List IcebergSnapshotLogEntry
  current_snapshot_id : Option Int
deriving DecidableEq, Repr

/-- Mutable state of IcebergSink (sink_iceberg.rs lines 214-227): the
optional loaded or created table metadata, the snapshot-id counter, and
the buffer of pending data files.  The connection configuration fields and
the object-store handle are external and omitted. -/
structure IcebergSinkState where
  table_metadata : Option IcebergTableMetadata
  current_snapshot_id : Int
  data_files : List IcebergDataFile
deriving DecidableEq, Repr

/-- IcebergSink::new (sink_iceberg.rs lines 229-254): no metadata yet,
snapshot counter seeded to 1, empty data-file buffer. -/
def iceberg_sink_new : IcebergSinkState :=
  { table_metadata := none, current_snapshot_id := 1, data_files := [] }

/-- Successful-load branch of IcebergSink::create_or_load_table_metadata
(sink_iceberg.rs lines 342-347): the deserialized metadata is stored and
nothing else changes; in particular the snapshot-id counter keeps the
value 1 set by the constructor. -/
def create_or_load_loaded (loaded : IcebergTableMetadata) (s : IcebergSinkState) :
    IcebergSinkState :=
  { s with table_metadata := some loaded }

/-- Create-new branch of IcebergSink::create_or_load_table_metadata via
create_new_table_metadata (sink_iceberg.rs lines 358-406), projected to
the modelled metadata fields: empty snapshot map and log, no current
snapshot. -/
def create_or_load_fresh (now : Int) (s : IcebergSinkState) : IcebergSinkState :=
  { s with table_metadata := some (IcebergTableMetadata.mk now [] [] none) }

/-- IcebergSink::create_snapshot (sink_iceberg.rs lines 454-494).  The
clock value and the manifest path produced by create_manifest_file are
external inputs. -/
def create_snapshot (s : IcebergSinkState) (now : Int) (manifest_path : String) :
    IcebergSinkState :=
  match s.table_metadata with
  | none => s
  | some metadata =>
      let snapshot : IcebergSnapshot :=
        { snapshot_id := s.current_snapshot_id
          parent_snapshot_id := metadata.current_snapshot_id
          sequence_number := s.current_snapshot_id
          timestamp_ms := now
          manifest_list := manifest_path
          summary :=
            { operation := "append"
              added_data_files := Int.ofNat s.data_files.length
              deleted_data_files := 0
              total_records := (s.data_files.map (fun df => df.record_count)).sum
              added_records := (s.data_files.map (fun df => df.record_count)).sum
              deleted_records := 0
              added_files_size := (s.data_files.map (fun df => df.file_size_in_bytes)).sum
              deleted_files_size := 0 }
          schema_id := 0 }
      let metadata2 : IcebergTableMetadata :=
        { metadata with
          snapshots := hmInsert metadata.snapshots s.current_snapshot_id snapshot
          current_snapshot_id := some s.current_snapshot_id
          last_updated_ms := now
          snapshot_log := metadata.snapshot_log ++
            [IcebergSnapshotLogEntry.mk now s.current_snapshot_id] }
      { s with
        table_metadata := some metadata2
        current_snapshot_id := s.current_snapshot_id + 1 }

/-- One message delivered to IcebergSink::run.  A batch event carries the
environment of its arm: the generated file path and the byte size returned
by the parquet write; watermark and eos events carry the commit-time clock
value and the manifest path generated by create_manifest_file.  The i64
payload of a watermark is ignored by the sink and not modelled. -/
inductive SinkEvent
  | batch (file_path : String) (rows : Int) (file_size : Int)
  | watermark (now : Int) (manifest_path : String)
  | eos (now : Int) (manifest_path : String)

/-- One iteration of the message loop of IcebergSink::run (sink_iceberg.rs
lines 523-588). -/
def sink_step (s : IcebergSinkState) : SinkEvent → IcebergSinkState
  | .batch file_path rows file_size =>
      { s with data_files := s.data_files ++
          [IcebergDataFile.mk file_path "PARQUET" rows file_size] }
  | .watermark now manifest_path =>
      if s.data_files.isEmpty then s
      else
        let s2 := create_snapshot s now manifest_path
        { s2 with data_files := [] }
  | .eos now manifest_path =>
      if s.data_files.isEmpty then s
      else create_snapshot s now manifest_path

/-- The message loop of IcebergSink::run: fold sink_step over the incoming
events, stopping after an eos event as the loop breaks there. -/
def sink_run : IcebergSinkState → List SinkEvent → IcebergSinkState
  | s, [] => s
  | s, SinkEvent.eos now mp :: _ => sink_step s (SinkEvent.eos now mp)
  | s, e :: rest => sink_run (sink_step s e) rest

/-- One cell of an Arrow column: either null or a scalar of one of the
value kinds the repository materializes.  Float cells carry the exact
rational payload. -/
inductive CellValue
  | null
  | boolVal (b : Bool)
  | intVal (z : Int)
  | floatVal (q : Rat)
  | strVal (s : String)
deriving DecidableEq, Repr

/-- Arrow RecordBatch: a schema and one cell list per column. -/
structure RecordBatch where
  schema : Schema
  columns : List (List CellValue)
deriving DecidableEq, Repr

/-- Arrow RecordBatch::try_new, modelled from the arrow-rs contract the
repository relies on: the column count must match the schema's field
count, there must be at least one column, and all columns must have the
same number of rows. -/
def record_batch_try_new (schema : Schema) (columns : List (List CellValue)) :
    Except String RecordBatch :=
  if columns.length ≠ schema.fields.length then
    Except.error "number of columns must match number of fields"
  else if columns.isEmpty then
    Except.error "must either specify a row count or at least one column"
  else if columns.any (fun c => c.length ≠ (columns.headD []).length) then
    Except.error "all columns must have the same length"
  else
    Except.ok (RecordBatch.mk schema columns)

/-- Arrow RecordBatch::new_empty: one zero-row column per field. -/
def record_batch_new_empty (schema : Schema) : RecordBatch :=
  RecordBatch.mk schema (schema.fields.map (fun _ => []))

/-- Arrow RecordBatch::num_rows: the row count of the first column, zero
for a batch without columns. -/
def record_batch_num_rows (batch : RecordBatch) : Nat :=
  (batch.columns.headD []).length

/-- serde_json Value.as_bool. -/
def Json.as_bool : Json → Option Bool
  | .bool b => some b
  | _ => none

/-- serde_json Value.as_i64: defined for integer-stored numbers within the
i64 range, never for float-stored numbers. -/
def Json.as_i64 : Json → Option Int
  | .num (.posInt n) => if (n : Int) ≤ i64Max then some (n : Int) else none
  | .num (.negInt z) => some z
  | _ => none

/-- serde_json Value.as_f64: defined for every number; integer-stored
numbers are converted.  The conversion is modelled exactly (the f64
rounding of integers above 2^53 is irrelevant to every claim, which only
concern presence and defaults of values). -/
def Json.as_f64 : Json → Option Rat
  | .num (.posInt n) => some (n : Rat)
  | .num (.negInt z) => some (z : Rat)
  | .num (.float q) => some q
  | _ => none

/-- serde_json Value.as_str. -/
def Json.as_str : Json → Option String
  | .str s => some s
  | _ => none

/-- Escape of one character inside a JSON string literal.  The common
escapes are modelled; the \u escapes of other control characters are not,
as no claim evaluates the serializer on them. -/
def escapeJsonChar (c : Char) : String :=
  if c = '"' then "\\\""
  else if c = '\\' then "\\\\"
  else if c = '\n' then "\\n"
  else if c = '\t' then "\\t"
  else if c = '\r' then "\\r"
  else String.singleton c

/-- JSON string literal serialization: quotes around the escaped body. -/
def escapeJsonString (s : String) : String :=
  "\"" ++ String.join (s.toList.map escapeJsonChar) ++ "\""

mutual

/-- serde_json to_string on a Value (the serialization used for list and
fallback columns and for nested objects). -/
def Json.toJsonString : Json → String
  | .null => "null"
  | .bool true => "true"
  | .bool false => "false"
  | .num (.posInt n) => toString n
  | .num (.negInt z) => toString z
  | .num (.float q) => toString q
  | .str s => escapeJsonString s
  | .arr elems => "[" ++ Json.arrToString elems ++ "]"
  | .obj entries => "\x7b" ++ Json.objToString entries ++ "\x7d"

/-- Comma-joined serialization of array elements. -/
def Json.arrToString : List Json → String
  | [] => ""
  | [v] => v.toJsonString
  | v :: rest => v.toJsonString ++ "," ++ Json.arrToString rest

/-- Comma-joined serialization of object entries. -/
def Json.objToString : List (String × Json) → String
  | [] => ""
  | [(k, v)] => escapeJsonString k ++ ":" ++ v.toJsonString
  | (k, v) :: rest =>
      escapeJsonString k ++ ":" ++ v.toJsonString ++ "," ++ Json.objToString rest

end

/-- Cell built for one schema field from one JSON object record: the match
over the field's data type in parse_json_to_batch_dynamic (source_kafka.rs
lines 333-360), with the record's field value defaulting to JSON null when
the key is absent (line 331). -/
def build_cell (entries : List (String × Json)) (field : Field) : CellValue :=
  let field_value := (alookup field.name entries).getD Json.null
  match field.dataType with
  | .boolean => .boolVal (field_value.as_bool.getD false)
  | .int64 => .intVal (field_value.as_i64.getD 0)
  | .float64 => .floatVal (field_value.as_f64.getD 0)
  | .utf8 => .strVal (field_value.as_str.getD "")
  | .list _ _ _ => .strVal field_value.toJsonString
  | _ => .strVal field_value.toJsonString

/-- parse_json_to_batch_dynamic (source_kafka.rs lines 318-368): null
records yield no batch; otherwise one single-row column is built per field
of the current schema (no columns at all when the record is not an
object), and the columns are assembled with RecordBatch::try_new. -/
def parse_json_to_batch_dynamic (value : Json) (m : DynamicSchemaManager) :
    Except String (Option RecordBatch) :=
  if value.isNull then Except.ok none
  else
    match get_current_schema m with
    | none => Except.error "No schema available"
    | some schema =>
        let arrays : List (List CellValue) :=
          match value with
          | .obj entries => schema.fields.map (fun f => [build_cell entries f])
          | _ => []
        (record_batch_try_new schema arrays).map some

/-- parse_message (source_kafka.rs lines 309-315): a message without a
payload is read as JSON null; a message with a payload yields whatever
serde_json made of the bytes, an outcome taken here as the input. -/
def parse_message (payload : Option (Except String Json)) : Except String Json :=
  match payload with
  | some parsed => parsed
  | none => Except.ok Json.null

/-- One iteration of the message loop of KafkaPipelineSource::run
(source_kafka.rs lines 279-299) on an already-parsed record: update the
schema manager, build the batch, and return the messages sent downstream
for this record (one batch message or none). -/
def kafka_source_step (m : DynamicSchemaManager) (value : Json) :
    Except String (DynamicSchemaManager × List RecordBatch) :=
  let m2 := (update_schema_if_needed m value).1
  match parse_json_to_batch_dynamic value m2 with
  | Except.error e => Except.error e
  | Except.ok (some batch) => Except.ok (m2, [batch])
  | Except.ok none => Except.ok (m2, [])

/-- Iceberg field produced by schema conversion (sink_iceberg.rs lines
53-61). -/
structure IcebergField where
  id : Int
  name : String
  field_type : String
  required : Bool
  doc : Option String
deriving DecidableEq, Repr

/-- Iceberg schema produced by schema conversion (sink_iceberg.rs lines
47-51). -/
structure IcebergSchema where
  schema_id : Int
  fields : List IcebergField
deriving DecidableEq, Repr

/-- IcebergSink::convert_arrow_type_to_iceberg (sink_iceberg.rs lines
322-334).  The match has no arm for binary or list types, which therefore
take the catch-all string arm. -/
def convert_arrow_type_to_iceberg : DataType → String
  | .int64 => "long"
  | .int32 => "int"
  | .float64 => "double"
  | .float32 => "float"
  | .utf8 => "string"
  | .boolean => "boolean"
  | .timestamp _ _ => "timestamp"
  | .date32 => "date"
  | _ => "string"

/-- Field-list loop of IcebergSink::convert_arrow_schema_to_iceberg
(sink_iceberg.rs lines 302-314), carrying the running field id. -/
def convert_fields_from (field_id : Int) : List Field → List IcebergField
  | [] => []
  | f :: rest =>
      IcebergField.mk field_id f.name (convert_arrow_type_to_iceberg f.dataType)
        (!f.nullable) none :: convert_fields_from (field_id + 1) rest

/-- IcebergSink::convert_arrow_schema_to_iceberg (sink_iceberg.rs lines
301-320): ids assigned from 1 in declaration order, schema id 0. -/
def convert_arrow_schema_to_iceberg (schema : Schema) : IcebergSchema :=
  IcebergSchema.mk 0 (convert_fields_from 1 schema.fields)

/-- Configuration of the Partition transform (rde-tx lib.rs lines
477-492). -/
structure Partition where
  id : String
  schema : Schema
  partition_by : List String
  partition_format : String
deriving DecidableEq, Repr

/-- Partition::array_value_to_string (rde-tx lib.rs lines 601-604): the
simplified conversion returns the literal string value for every cell. -/
def array_value_to_string (_column : List CellValue) (_row_idx : Nat) : String :=
  "value"

/-- Per-field values collected by Partition::generate_partition_key
(rde-tx lib.rs lines 495-505): the stringified cell for a field that names
a column of the batch, the string unknown otherwise. -/
def partition_values (p : Partition) (batch : RecordBatch) (row_idx : Nat) :
    List String :=
  p.partition_by.map (fun partition_field =>
    match batch.schema.fields.findIdx? (fun f => f.name = partition_field) with
    | some col_idx => array_value_to_string (batch.columns.getD col_idx []) row_idx
    | none => "unknown")

/-- Template substitution of Partition::generate_partition_key (rde-tx
lib.rs lines 510-515): each brace-wrapped index is replaced by the
corresponding value. -/
def format_partition_key (format : String) (values : List String) : String :=
  (values.enum).foldl
    (fun result iv => result.replace ("\x7b" ++ toString iv.1 ++ "\x7d") iv.2)
    format

/-- Partition::generate_partition_key (rde-tx lib.rs lines 494-517); the
always-Ok result is returned directly. -/
def generate_partition_key (p : Partition) (batch : RecordBatch) (row_idx : Nat) :
    String :=
  if p.partition_format = "" then
    String.intercalate "/" (partition_values p batch row_idx)
  else
    format_partition_key p.partition_format (partition_values p batch row_idx)

/-- Partition::add_partition_columns (rde-tx lib.rs lines 573-599): the
original columns and fields, with a nullable utf8 partition_key column of
per-row keys and a nullable utf8 partition_date column of the current UTC
date appended.  The formatted date is an environment input. -/
def add_partition_columns (p : Partition) (batch : RecordBatch) (today : String) :
    RecordBatch :=
  let num_rows := record_batch_num_rows batch
  let partition_keys := (List.range num_rows).map
    (fun row_idx => CellValue.strVal (generate_partition_key p batch row_idx))
  let timestamps := (List.range num_rows).map (fun _ => CellValue.strVal today)
  RecordBatch.mk
    (Schema.mk (batch.schema.fields ++
      [Field.mk "partition_key" DataType.utf8 true,
       Field.mk "partition_date" DataType.utf8 true]))
    (batch.columns ++ [partition_keys, timestamps])

/-- Configuration of the SqlTransform (rde-tx lib.rs lines 608-627); the
DataFusion session context is external. -/
structure SqlTransform where
  id : String
  schema : Schema
  query : String
  window_size : Nat
deriving DecidableEq, Repr

/-- SqlTransform::combine_batches (rde-tx lib.rs lines 745-758): the empty
buffer yields an empty batch of the transform's schema, a single buffered
batch is returned as is, and with several buffered batches the simplified
implementation returns the first one. -/
def combine_batches (t : SqlTransform) (batches : List RecordBatch) : RecordBatch :=
  match batches with
  | [] => record_batch_new_empty t.schema
  | [b] => b
  | b :: _ :: _ => b

/-- SqlTransform::execute_sql_query (rde-tx lib.rs lines 629-655).  The
embedded SQL engine is external: it is modelled as a function from the
query and the batch registered as the input_data table to the list of
result batches DataFusion collects.  An empty result yields an empty batch
of the transform's schema; otherwise the first result batch is returned. -/
def execute_sql_query (sqlEngine : String → RecordBatch → List RecordBatch)
    (t : SqlTransform) (batch : RecordBatch) : RecordBatch :=
  match sqlEngine t.query batch with
  | [] => record_batch_new_empty t.schema
  | b :: _ => b

/-- Message flowing through a transform, with the batch payload
modelled. -/
inductive TxMessage
  | batch (b : RecordBatch)
  | watermark (t : Int)
  | eos
deriving DecidableEq

/-- One iteration of the message loop of SqlTransform::run (rde-tx lib.rs
lines 679-737): returns the new buffer and the messages sent downstream.
On eos the loop ends without clearing the buffer; the buffer value
returned for eos is the untouched one. -/
def sql_transform_step (sqlEngine : String → RecordBatch → List RecordBatch)
    (t : SqlTransform) (buffer : List RecordBatch) :
    TxMessage → List RecordBatch × List TxMessage
  | .batch b =>
      let buffer2 := buffer ++ [b]
      if buffer2.length ≥ t.window_size then
        ([], [TxMessage.batch (execute_sql_query sqlEngine t (combine_batches t buffer2))])
      else
        (buffer2, [])
  | .watermark w =>
      if buffer.isEmpty then
        (buffer, [TxMessage.watermark w])
      else
        ([], [TxMessage.batch (execute_sql_query sqlEngine t (combine_batches t buffer)),
              TxMessage.watermark w])
  | .eos =>
      if buffer.isEmpty then
        (buffer, [TxMessage.eos])
      else
        (buffer, [TxMessage.batch (execute_sql_query sqlEngine t (combine_batches t buffer)),
                  TxMessage.eos])

/-- Concatenation of buffered batches as the specification words describe
the SQL transform's windowing: all buffered batches are concatenated
column-wise into a single table.  Stated for comparison with
combine_batches; an empty buffer yields the empty batch of the transform's
schema. -/
def concat_batches_spec (t : SqlTransform) (batches : List RecordBatch) : RecordBatch :=
  match batches with
  | [] => record_batch_new_empty t.schema
  | b :: rest =>
      RecordBatch.mk b.schema
        (rest.foldl (fun cols b2 => List.zipWith (fun c1 c2 => c1 ++ c2) cols b2.columns)
          b.columns)

/-- Cell a missing record field produces, as the amended claim words it: a
type-dependent default rather than a null.  Stated for comparison with
build_cell. -/
def missing_field_cell_spec : DataType → CellValue
  | .boolean => .boolVal false
  | .int64 => .intVal 0
  | .float64 => .floatVal 0
  | .utf8 => .strVal ""
  | _ => .strVal "null"

/-- Field names of a schema. -/
def fieldNames (s : Schema) : List String :=
  s.fields.map (fun f => f.name)

/-- Whether every field name of the first schema appears in the second. -/
def namesSubset (s t : Schema) : Bool :=
  (fieldNames s).all (fun n => (fieldNames t).contains n)

/-- Whether each adjacent pair of schemas in the list is related by
namesSubset. -/
def namesNonDecreasingB : List Schema → Bool
  | [] => true
  | [_] => true
  | s :: t :: rest => namesSubset s t && namesNonDecreasingB (t :: rest)

/-- Field-set inclusion between consecutive published schemas, as the
claim words it: every field name of each published schema appears in the
next one. -/
def namesNonDecreasing (schemas : List Schema) : Prop :=
  namesNonDecreasingB schemas = true

/-- Lookup after replacing every entry of a key: the new value when the
key was present, unchanged lookups otherwise. -/
theorem alookup_replaceAll {α β : Type} [DecidableEq α]
    (m : List (α × β)) (k : α) (v : β) (k' : α) :
    alookup k' (m.map fun p => if p.1 = k then (k, v) else p)
      = if k' = k then (alookup k m).map (fun _ => v) else alookup k' m := by
  induction m with
  | nil => simp [alookup]
  | cons p rest ih =>
    by_cases hp : p.1 = k
    · by_cases hk : k' = k
      · subst hk; simp [alookup, hp]
      · simp [alookup, hp, hk, ih, show ¬k = k' from fun hh => hk hh.symm]
    · by_cases hk : k' = k
      · subst hk; simp [alookup, hp, ih]
      · simp [alookup, hp, hk, ih]

/-- A key that no entry carries looks up to none. -/
theorem alookup_eq_none_of_any_false {α β : Type} [DecidableEq α]
    (m : List (α × β)) (k : α) (h : m.any (fun p => p.1 = k) = false) :
    alookup k m = none := by
  induction m with
  | nil => rfl
  | cons p rest ih =>
    simp only [List.any_cons, Bool.or_eq_false_iff] at h
    simp [alookup, ih h.2, show ¬p.1 = k by simpa using h.1]

/-- A key some entry carries looks up to a value. -/
theorem alookup_isSome_of_any_true {α β : Type} [DecidableEq α]
    (m : List (α × β)) (k : α) (h : m.any (fun p => p.1 = k) = true) :
    (alookup k m).isSome := by
  induction m with
  | nil => simp at h
  | cons p rest ih =>
    by_cases hp : p.1 = k
    · simp [alookup, hp]
    · simp only [List.any_cons, Bool.or_eq_true] at h
      have := h.resolve_left (by simpa using hp)
      simp [alookup, hp, ih this]

/-- Lookup in an appended single entry. -/
theorem alookup_append_single {α β : Type} [DecidableEq α]
    (m : List (α × β)) (k : α) (v : β) (k' : α) :
    alookup k' (m ++ [(k, v)])
      = match alookup k' m with
        | some w => some w
        | none => if k' = k then some v else none := by
  induction m with
  | nil =>
    simp only [List.nil_append, alookup]
    by_cases hk : k' = k
    · simp [hk]
    · simp [hk, show ¬k = k' from fun hh => hk hh.symm]
  | cons p rest ih =>
    by_cases hp : p.1 = k' <;> simp [alookup, hp, ih]

/-- Lookup through the HashMap insert model: the inserted key maps to the
inserted value and every other key is unaffected. -/
theorem alookup_hmInsert {α β : Type} [DecidableEq α]
    (m : List (α × β)) (k : α) (v : β) (k' : α) :
    alookup k' (hmInsert m k v) = if k' = k then some v else alookup k' m := by
  unfold hmInsert
  by_cases h : m.any (fun p => p.1 = k)
  · rw [if_pos h, alookup_replaceAll]
    by_cases hk : k' = k
    · obtain ⟨w, hw⟩ := Option.isSome_iff_exists.mp (alookup_isSome_of_any_true m k h)
      simp [hk, hw]
    · simp [hk]
  · rw [if_neg h, alookup_append_single]
    have hfalse : m.any (fun p => p.1 = k) = false := by
      cases hb : m.any (fun p => p.1 = k)
      · rfl
      · exact absurd hb h
    have hnone := alookup_eq_none_of_any_false m k hfalse
    by_cases hk : k' = k
    · subst hk; simp [hnone]
    · cases hka : alookup k' m <;> simp [hk]

/-- Lookup in the map built by inserting a list of fields keyed by name:
with pairwise-distinct names, each name maps to its field and absent names
fall through to the starting map. -/
theorem alookup_foldl_hmInsert (fs : List Field) (m0 : List (String × Field))
    (h : (fs.map Field.name).Nodup) (k : String) :
    alookup k (fs.foldl (fun m f => hmInsert m f.name f) m0)
      = match fs.find? (fun f => f.name = k) with
        | some f => some f
        | none => alookup k m0 := by
  induction fs generalizing m0 with
  | nil => simp
  | cons f rest ih =>
    simp only [List.map_cons, List.nodup_cons] at h
    by_cases hf : f.name = k
    · have hrest : rest.find? (fun g => g.name = k) = none := by
        rw [List.find?_eq_none]
        intro g hg
        simp only [decide_eq_true_eq]
        intro hgk
        exact h.1 (by rw [hf, ← hgk]; exact List.mem_map_of_mem Field.name hg)
      simp only [List.foldl_cons]
      rw [List.find?_cons_of_pos _ (by simpa using hf), ih _ h.2, hrest,
        alookup_hmInsert]
      simp [hf]
    · simp only [List.foldl_cons]
      rw [List.find?_cons_of_neg _ (by simpa using hf), ih _ h.2,
        alookup_hmInsert]
      simp [show ¬k = f.name from fun hh => hf hh.symm]

/-- Lookup in the map after folding the new schema's fields through
tm_merge_step: with pairwise-distinct new-field names, a name in the new
schema maps to the promoted field when the starting map carries it and to
the new field itself otherwise; other names are unaffected. -/
theorem alookup_foldl_merge (fs : List Field) (m0 : List (String × Field))
    (h : (fs.map Field.name).Nodup) (k : String) :
    alookup k (fs.foldl tm_merge_step m0)
      = match fs.find? (fun f => f.name = k) with
        | some f => some (match alookup k m0 with
            | some e => Field.mk f.name (promote_field_type e.dataType f.dataType) f.nullable
            | none => f)
        | none => alookup k m0 := by
  induction fs generalizing m0 with
  | nil => simp
  | cons f rest ih =>
    simp only [List.map_cons, List.nodup_cons] at h
    by_cases hf : f.name = k
    · have hrest : rest.find? (fun g => g.name = k) = none := by
        rw [List.find?_eq_none]
        intro g hg
        simp only [decide_eq_true_eq]
        intro hgk
        exact h.1 (by rw [hf, ← hgk]; exact List.mem_map_of_mem Field.name hg)
      simp only [List.foldl_cons]
      rw [List.find?_cons_of_pos _ (by simpa using hf), ih _ h.2, hrest]
      unfold tm_merge_step
      cases he : alookup f.name m0 with
      | none =>
        rw [hf] at he
        simp [alookup_hmInsert, hf, he]
      | some e =>
        rw [hf] at he
        simp [alookup_hmInsert, hf, he]
    · simp only [List.foldl_cons]
      rw [List.find?_cons_of_neg _ (by simpa using hf), ih _ h.2]
      have hstep : alookup k (tm_merge_step m0 f) = alookup k m0 := by
        unfold tm_merge_step
        cases alookup f.name m0 <;>
          simp [alookup_hmInsert, show ¬k = f.name from fun hh => hf hh.symm]
      rw [hstep]

/-- C1: on a Watermark or Eos with a non-empty DataFile buffer the sink
commits: the metadata gains a snapshot keyed by the counter value whose
parent is the previous current snapshot id, whose summary records an
append of the buffered files with record and byte sums, the snapshot log
is extended by the new id, and the current snapshot id becomes the new id;
with an empty buffer both events leave the state unchanged. -/
theorem iceberg_commit_on_watermark_or_eos
    (s : IcebergSinkState) (md : IcebergTableMetadata) (now : Int) (mpath : String)
    (hmd : s.table_metadata = some md) :
    (s.data_files ≠ [] →
      ∃ md2 : IcebergTableMetadata,
        (sink_step s (SinkEvent.watermark now mpath)).table_metadata = some md2 ∧
        (sink_step s (SinkEvent.eos now mpath)).table_metadata = some md2 ∧
        (∃ snap : IcebergSnapshot,
          alookup s.current_snapshot_id md2.snapshots = some snap ∧
          snap.snapshot_id = s.current_snapshot_id ∧
          snap.parent_snapshot_id = md.current_snapshot_id ∧
          snap.summary.operation = "append" ∧
          snap.summary.added_data_files = Int.ofNat s.data_files.length ∧
          snap.summary.added_records = (s.data_files.map (fun df => df.record_count)).sum ∧
          snap.summary.added_files_size
            = (s.data_files.map (fun df => df.file_size_in_bytes)).sum) ∧
        md2.snapshot_log
          = md.snapshot_log ++ [IcebergSnapshotLogEntry.mk now s.current_snapshot_id] ∧
        md2.current_snapshot_id = some s.current_snapshot_id ∧
        (sink_step s (SinkEvent.watermark now mpath)).data_files = []) ∧
    (s.data_files = [] →
      sink_step s (SinkEvent.watermark now mpath) = s ∧
      sink_step s (SinkEvent.eos now mpath) = s) := by
  constructor
  · intro h
    have hne : s.data_files.isEmpty = false := by
      cases hdf : s.data_files
      · exact absurd hdf h
      · rfl
    have hcs : create_snapshot s now mpath = { s with
        table_metadata := some (IcebergTableMetadata.mk now
          (hmInsert md.snapshots s.current_snapshot_id
            (IcebergSnapshot.mk s.current_snapshot_id md.current_snapshot_id
              s.current_snapshot_id now mpath
              (IcebergSnapshotSummary.mk "append" (Int.ofNat s.data_files.length) 0
                ((s.data_files.map (fun df => df.record_count)).sum)
                ((s.data_files.map (fun df => df.record_count)).sum) 0
                ((s.data_files.map (fun df => df.file_size_in_bytes)).sum) 0) 0))
          (md.snapshot_log ++ [IcebergSnapshotLogEntry.mk now s.current_snapshot_id])
          (some s.current_snapshot_id))
        current_snapshot_id := s.current_snapshot_id + 1 } := by
      unfold create_snapshot
      rw [hmd]
    refine ⟨IcebergTableMetadata.mk now
        (hmInsert md.snapshots s.current_snapshot_id
          (IcebergSnapshot.mk s.current_snapshot_id md.current_snapshot_id
            s.current_snapshot_id now mpath
            (IcebergSnapshotSummary.mk "append" (Int.ofNat s.data_files.length) 0
              ((s.data_files.map (fun df => df.record_count)).sum)
              ((s.data_files.map (fun df => df.record_count)).sum) 0
              ((s.data_files.map (fun df => df.file_size_in_bytes)).sum) 0) 0))
        (md.snapshot_log ++ [IcebergSnapshotLogEntry.mk now s.current_snapshot_id])
        (some s.current_snapshot_id),
      ?_, ?_,
      ⟨IcebergSnapshot.mk s.current_snapshot_id md.current_snapshot_id
          s.current_snapshot_id now mpath
          (IcebergSnapshotSummary.mk "append" (Int.ofNat s.data_files.length) 0
            ((s.data_files.map (fun df => df.record_count)).sum)
            ((s.data_files.map (fun df => df.record_count)).sum) 0
            ((s.data_files.map (fun df => df.file_size_in_bytes)).sum) 0) 0,
        ?_, rfl, rfl, rfl, rfl, rfl, rfl⟩,
      rfl, rfl, ?_⟩
    · simp [sink_step, hne, hcs]
    · simp [sink_step, hne, hcs]
    · rw [alookup_hmInsert]
      simp
    · simp [sink_step, hne, hcs]
  · intro h
    simp [sink_step, h]

/-- Witness for C1 at a concrete sink state holding two buffered files. -/
def c1_state : IcebergSinkState :=
  IcebergSinkState.mk
    (some (IcebergTableMetadata.mk 100 [] [] (some 3))) 7
    [IcebergDataFile.mk "p1" "PARQUET" 2 10, IcebergDataFile.mk "p2" "PARQUET" 3 20]

/-- Witness for C1: the commit theorem applied at a concrete state. -/
theorem iceberg_commit_on_watermark_or_eos_witness :
    c1_state.table_metadata = some (IcebergTableMetadata.mk 100 [] [] (some 3)) ∧
    c1_state.data_files ≠ [] ∧
    (sink_step c1_state (SinkEvent.watermark 50 "m")).data_files = [] := by
  refine ⟨rfl, by decide, ?_⟩
  obtain ⟨md2, _, _, _, _, _, hclear⟩ :=
    (iceberg_commit_on_watermark_or_eos c1_state
      (IcebergTableMetadata.mk 100 [] [] (some 3)) 50 "m" rfl).1 (by decide)
  exact hclear

/-- Metadata of a table that already holds one committed snapshot with id
1, as a run of the sink would have written it before a restart. -/
def c2_loaded_metadata : IcebergTableMetadata :=
  IcebergTableMetadata.mk 100
    [(1, IcebergSnapshot.mk 1 none 1 100 "m0"
        (IcebergSnapshotSummary.mk "append" 1 0 5 5 0 50 0) 0)]
    [IcebergSnapshotLogEntry.mk 100 1]
    (some 1)

/-- C2: loading existing table metadata does not reseed the snapshot-id
counter: the constructor leaves it at 1, so the first commit after the
load appends snapshot id 1 to a snapshot log that already ends in 1,
violating strict increase along the log (and overwriting the existing
snapshot entry), where the claim requires the counter to be seeded to
last-snapshot-id + 1 = 2. -/
theorem iceberg_snapshot_counter_not_reseeded :
    (create_or_load_loaded c2_loaded_metadata iceberg_sink_new).current_snapshot_id = 1 ∧
    (create_or_load_loaded c2_loaded_metadata iceberg_sink_new).current_snapshot_id ≠ 1 + 1 ∧
    ((sink_run (create_or_load_loaded c2_loaded_metadata iceberg_sink_new)
        [SinkEvent.batch "p" 5 100, SinkEvent.watermark 200 "m1"]).table_metadata.map
      (fun md => md.snapshot_log.map (fun e => e.snapshot_id))) = some [1, 1] ∧
    ¬ List.Pairwise (fun a b : Int => a < b) [1, 1] := by decide

/-- Schema manager before any record: auto-infer on, no schema yet. -/
def c3_manager : DynamicSchemaManager := DynamicSchemaManager.mk none none true

/-- First record: two integer keys. -/
def c3_record1 : Json :=
  Json.obj [("a", Json.num (JNumber.posInt 1)), ("b", Json.num (JNumber.posInt 2))]

/-- Second record: only the first key. -/
def c3_record2 : Json := Json.obj [("a", Json.num (JNumber.posInt 1))]

/-- C3 counterexample: feeding a record with fields a, b and then a record
with only field a publishes two schemas whose field sets shrink, so the
published sequence is not non-decreasing in field set. -/
theorem schema_manager_field_set_shrinks :
    ¬ namesNonDecreasing (publishedSchemas c3_manager [c3_record1, c3_record2]) := by
  unfold namesNonDecreasing
  decide

/-- C3 amended: with auto-infer on, the schema manager publishes exactly
the schema inferred from the latest record, replacing rather than merging
the previous one (so the field set may shrink); the TopicMappingManager
merge of an existing schema with a new one produces, keyed by name and in
unspecified order, the union of the two field sets, where a field present
in both carries the promotion-table type of (existing, new) and the new
field's nullability. -/
theorem schema_manager_replaces_and_merge_unions :
    (∀ (m : DynamicSchemaManager) (v : Json), m.auto_infer = true →
      ((update_schema_if_needed m v).1.current_schema).map Schema.fields
        = some (infer_schema v).fields) ∧
    (∀ (current new_schema : Schema) (k : String),
      (current.fields.map Field.name).Nodup →
      (new_schema.fields.map Field.name).Nodup →
      alookup k (tm_merge_schemas (some current) new_schema)
        = match current.fields.find? (fun f => f.name = k),
                new_schema.fields.find? (fun f => f.name = k) with
          | some e, some f =>
              some (Field.mk f.name (promote_field_type e.dataType f.dataType) f.nullable)
          | some e, none => some e
          | none, some f => some f
          | none, none => none) := by
  constructor
  · intro m v hai
    simp only [update_schema_if_needed, hai, Bool.not_true, Bool.false_eq_true, if_false]
    cases hc : m.current_schema with
    | none => simp
    | some current =>
      by_cases hne : current.fields ≠ (infer_schema v).fields
      · simp [hne]
      · push_neg at hne
        simp [hne, hc]
  · intro current new_schema k hc hn
    have hbase : alookup k
        (current.fields.foldl (fun m (f : Field) => hmInsert m f.name f) [])
        = match current.fields.find? (fun f => f.name = k) with
          | some e => some e
          | none => none := by
      rw [alookup_foldl_hmInsert _ _ hc k]
      cases current.fields.find? (fun f => f.name = k) <;> simp [alookup]
    simp only [tm_merge_schemas]
    rw [alookup_foldl_merge _ _ hn k, hbase]
    cases hfc : current.fields.find? (fun f => f.name = k) <;>
      cases hfn : new_schema.fields.find? (fun f => f.name = k) <;> simp

/-- Witness for C3 at a concrete manager, record, and merge input. -/
theorem schema_manager_replaces_and_merge_unions_witness :
    (c3_manager.auto_infer = true) ∧
    ((update_schema_if_needed c3_manager Json.null).1.current_schema).map Schema.fields
      = some [] ∧
    alookup "a" (tm_merge_schemas (some (Schema.mk [Field.mk "a" DataType.int32 false]))
        (Schema.mk [Field.mk "a" DataType.int64 true]))
      = some (Field.mk "a" DataType.int64 true) := by
  refine ⟨rfl, ?_, ?_⟩
  · have h := schema_manager_replaces_and_merge_unions.1 c3_manager Json.null rfl
    simpa [infer_schema] using h
  · have h := schema_manager_replaces_and_merge_unions.2
      (Schema.mk [Field.mk "a" DataType.int32 false])
      (Schema.mk [Field.mk "a" DataType.int64 true]) "a" (by decide) (by decide)
    rw [h]
    decide

/-- C4: type promotion returns i64 for (i32, i64), f64 for (f32, f64),
(i32, f64) and (i64, f64), and in every other case returns the existing
type unchanged. -/
theorem promote_field_type_table :
    promote_field_type DataType.int32 DataType.int64 = DataType.int64 ∧
    promote_field_type DataType.float32 DataType.float64 = DataType.float64 ∧
    promote_field_type DataType.int32 DataType.float64 = DataType.float64 ∧
    promote_field_type DataType.int64 DataType.float64 = DataType.float64 ∧
    ∀ (existing new : DataType),
      ¬((existing = DataType.int32 ∧ new = DataType.int64) ∨
        (existing = DataType.float32 ∧ new = DataType.float64) ∨
        (existing = DataType.int32 ∧ new = DataType.float64) ∨
        (existing = DataType.int64 ∧ new = DataType.float64)) →
      promote_field_type existing new = existing := by
  refine ⟨rfl, rfl, rfl, rfl, ?_⟩
  intro existing new h
  cases existing <;> cases new <;> simp_all [promote_field_type]

/-- Witness for C4: an unlisted pair keeps the existing type. -/
theorem promote_field_type_table_witness :
    promote_field_type DataType.utf8 DataType.int64 = DataType.utf8 :=
  promote_field_type_table.2.2.2.2 DataType.utf8 DataType.int64 (by decide)

/-- Schema manager holding a one-field i64 schema. -/
def c5_manager : DynamicSchemaManager :=
  DynamicSchemaManager.mk (some (Schema.mk [Field.mk "a" DataType.int64 true])) none true

/-- C5 counterexample: a record missing the schema's i64 field a yields a
batch whose a column holds the non-null default 0, not a null. -/
theorem missing_field_not_null :
    parse_json_to_batch_dynamic (Json.obj []) c5_manager
      = Except.ok (some (RecordBatch.mk (Schema.mk [Field.mk "a" DataType.int64 true])
          [[CellValue.intVal 0]])) ∧
    CellValue.intVal 0 ≠ CellValue.null := by
  constructor
  · rfl
  · decide

/-- C5 amended: a record field absent from a JSON object record yields the
column type's default value in the single-row batch (false, 0, 0.0, the
empty string, or the serialization of JSON null), not a typed null. -/
theorem missing_fields_default_valued
    (m : DynamicSchemaManager) (s : Schema) (entries : List (String × Json))
    (hs : get_current_schema m = some s) (hne : s.fields ≠ []) :
    parse_json_to_batch_dynamic (Json.obj entries) m
      = Except.ok (some (RecordBatch.mk s
          (s.fields.map (fun f => [build_cell entries f])))) ∧
    ∀ f : Field, alookup f.name entries = none →
      build_cell entries f = missing_field_cell_spec f.dataType := by
  constructor
  · cases hsf : s.fields with
    | nil => exact absurd hsf hne
    | cons f0 fs =>
      simp only [parse_json_to_batch_dynamic, Json.isNull, hs, record_batch_try_new,
        Bool.false_eq_true, if_false, hsf]
      simp [List.any_eq_true, Except.map]
  · intro f hf
    unfold build_cell missing_field_cell_spec
    simp only [hf, Option.getD]
    cases f.dataType <;>
      simp [Json.as_bool, Json.as_i64, Json.as_f64, Json.as_str, Json.toJsonString]

/-- Witness for C5 applied at the concrete one-field manager and an empty
record. -/
theorem missing_fields_default_valued_witness :
    get_current_schema c5_manager = some (Schema.mk [Field.mk "a" DataType.int64 true]) ∧
    parse_json_to_batch_dynamic (Json.obj []) c5_manager
      = Except.ok (some (RecordBatch.mk (Schema.mk [Field.mk "a" DataType.int64 true])
          [[CellValue.intVal 0]])) ∧
    build_cell [] (Field.mk "a" DataType.int64 true)
      = missing_field_cell_spec DataType.int64 := by
  have h := missing_fields_default_valued c5_manager
    (Schema.mk [Field.mk "a" DataType.int64 true]) [] rfl (by decide)
  refine ⟨rfl, ?_, h.2 (Field.mk "a" DataType.int64 true) rfl⟩
  rw [h.1]
  rfl

/-- C6 counterexample: the integer 2 to the 63rd power is a JSON integer
number, but inference maps it to utf8, not i64, because it exceeds the
i64 range and is not float-stored. -/
theorem big_integer_infers_utf8 :
    infer_field_type (Json.num (JNumber.posInt 9223372036854775808)) = DataType.utf8 ∧
    DataType.utf8 ≠ DataType.int64 := by
  constructor
  · decide
  · decide

/-- C6 amended: inference emits one nullable field per object key; null,
strings and nested objects infer utf8; booleans infer bool; integer
numbers within the i64 range infer i64 and integer numbers beyond it
infer utf8; float-stored numbers infer f64; an empty array infers utf8 and
a non-empty array infers list-of-T with T the inferred type of the first
non-null element, utf8 when all elements are null. -/
theorem infer_schema_field_typing :
    (∀ entries, (infer_schema (Json.obj entries)).fields
        = entries.map (fun kv => Field.mk kv.1 (infer_field_type kv.2) true)) ∧
    infer_field_type Json.null = DataType.utf8 ∧
    (∀ b, infer_field_type (Json.bool b) = DataType.boolean) ∧
    (∀ n : Nat, (n : Int) ≤ i64Max →
      infer_field_type (Json.num (JNumber.posInt n)) = DataType.int64) ∧
    (∀ n : Nat, i64Max < (n : Int) →
      infer_field_type (Json.num (JNumber.posInt n)) = DataType.utf8) ∧
    (∀ z : Int, infer_field_type (Json.num (JNumber.negInt z)) = DataType.int64) ∧
    (∀ q : Rat, infer_field_type (Json.num (JNumber.float q)) = DataType.float64) ∧
    (∀ s, infer_field_type (Json.str s) = DataType.utf8) ∧
    (∀ entries, infer_field_type (Json.obj entries) = DataType.utf8) ∧
    infer_field_type (Json.arr []) = DataType.utf8 ∧
    (∀ v rest, infer_field_type (Json.arr (v :: rest))
        = DataType.list "item" (inferFirstNonNull (v :: rest)) true) ∧
    (∀ rest, inferFirstNonNull (Json.null :: rest) = inferFirstNonNull rest) ∧
    (∀ v rest, v.isNull = false → inferFirstNonNull (v :: rest) = infer_field_type v) ∧
    inferFirstNonNull [] = DataType.utf8 := by
  refine ⟨?_, rfl, fun b => rfl, ?_, ?_, fun z => rfl, fun q => rfl, fun s => rfl,
    fun entries => rfl, rfl, fun v rest => rfl, fun rest => rfl, ?_, rfl⟩
  · intro entries
    simp [infer_schema]
  · intro n hn
    simp [infer_field_type, JNumber.is_i64, hn]
  · intro n hn
    simp [infer_field_type, JNumber.is_i64, JNumber.is_f64, not_le.mpr hn]
  · intro v rest hv
    cases v <;> simp_all [Json.isNull, inferFirstNonNull]

/-- Witness for C6 at concrete numbers and a non-null array head. -/
theorem infer_schema_field_typing_witness :
    infer_field_type (Json.num (JNumber.posInt 5)) = DataType.int64 ∧
    infer_field_type (Json.num (JNumber.posInt 9223372036854775809)) = DataType.utf8 ∧
    inferFirstNonNull [Json.bool true] = infer_field_type (Json.bool true) := by
  refine ⟨infer_schema_field_typing.2.2.2.1 5 (by decide),
    infer_schema_field_typing.2.2.2.2.1 9223372036854775809 (by decide),
    infer_schema_field_typing.2.2.2.2.2.2.2.2.2.2.2.2.1 (Json.bool true) [] rfl⟩

/-- Ids assigned by the conversion loop: consecutive integers from the
starting id, one per field in order. -/
theorem convert_fields_from_ids (n : Int) (fs : List Field) :
    (convert_fields_from n fs).map (fun f => f.id)
      = (List.range fs.length).map (fun i : Nat => n + (i : Int)) := by
  induction fs generalizing n with
  | nil => simp [convert_fields_from]
  | cons f rest ih =>
    have htail : (convert_fields_from (n + 1) rest).map (fun g => g.id)
        = (List.range rest.length).map (fun i : Nat => n + ((i + 1 : Nat) : Int)) := by
      rw [ih (n + 1)]
      apply List.map_congr_left
      intro i _
      push_cast
      ring
    calc (convert_fields_from n (f :: rest)).map (fun g => g.id)
        = n :: (convert_fields_from (n + 1) rest).map (fun g => g.id) := rfl
      _ = n :: (List.range rest.length).map (fun i : Nat => n + ((i + 1 : Nat) : Int)) := by
          rw [htail]
      _ = (List.range (f :: rest).length).map (fun i : Nat => n + (i : Int)) := by
          rw [List.length_cons, List.range_succ_eq_map]
          simp [List.map_map, Function.comp, Nat.succ_eq_add_one]

/-- Each converted field keeps its source field's name, maps its type
through convert_arrow_type_to_iceberg, and negates the nullable flag. -/
theorem convert_fields_from_shape (n : Int) (fs : List Field) :
    List.Forall₂ (fun (f : Field) (g : IcebergField) =>
      g.name = f.name ∧ g.field_type = convert_arrow_type_to_iceberg f.dataType ∧
      g.required = !f.nullable) fs (convert_fields_from n fs) := by
  induction fs generalizing n with
  | nil => exact List.Forall₂.nil
  | cons f rest ih => exact List.Forall₂.cons ⟨rfl, rfl, rfl⟩ (ih (n + 1))

/-- C7 counterexample: the sink's type conversion has no arm for binary,
which falls to the catch-all and maps to string, not binary. -/
theorem binary_maps_to_string :
    convert_arrow_type_to_iceberg DataType.binary = "string" ∧
    ("string" : String) ≠ "binary" := by
  constructor
  · rfl
  · decide

/-- C7 amended: the sink maps i32 to int, i64 to long, f32 to float, f64
to double, bool to boolean, utf8 to string, date to date, every timestamp
of any unit to timestamp, and every other type including binary to string;
converted fields carry ids 1, 2, 3, ... in declaration order, keep their
names, and set required to the negation of nullable. -/
theorem arrow_to_iceberg_schema_mapping :
    convert_arrow_type_to_iceberg DataType.int32 = "int" ∧
    convert_arrow_type_to_iceberg DataType.int64 = "long" ∧
    convert_arrow_type_to_iceberg DataType.float32 = "float" ∧
    convert_arrow_type_to_iceberg DataType.float64 = "double" ∧
    convert_arrow_type_to_iceberg DataType.boolean = "boolean" ∧
    convert_arrow_type_to_iceberg DataType.utf8 = "string" ∧
    convert_arrow_type_to_iceberg DataType.date32 = "date" ∧
    (∀ u tz, convert_arrow_type_to_iceberg (DataType.timestamp u tz) = "timestamp") ∧
    convert_arrow_type_to_iceberg DataType.binary = "string" ∧
    (∀ a b c, convert_arrow_type_to_iceberg (DataType.list a b c) = "string") ∧
    convert_arrow_type_to_iceberg DataType.other = "string" ∧
    (∀ schema : Schema,
      (convert_arrow_schema_to_iceberg schema).fields.map (fun f => f.id)
        = (List.range schema.fields.length).map (fun i : Nat => 1 + (i : Int)) ∧
      List.Forall₂ (fun (f : Field) (g : IcebergField) =>
        g.name = f.name ∧ g.field_type = convert_arrow_type_to_iceberg f.dataType ∧
        g.required = !f.nullable) schema.fields (convert_arrow_schema_to_iceberg schema).fields) := by
  refine ⟨rfl, rfl, rfl, rfl, rfl, rfl, rfl, fun u tz => rfl, rfl, fun a b c => rfl, rfl, ?_⟩
  intro schema
  exact ⟨convert_fields_from_ids 1 schema.fields, convert_fields_from_shape 1 schema.fields⟩

/-- SqlTransform configured with a two-batch window over a one-column
schema. -/
def c8_transform : SqlTransform :=
  SqlTransform.mk "sql" (Schema.mk [Field.mk "a" DataType.int64 true]) "SELECT 1" 2

/-- First buffered single-row batch. -/
def c8_b1 : RecordBatch :=
  RecordBatch.mk (Schema.mk [Field.mk "a" DataType.int64 true]) [[CellValue.intVal 1]]

/-- Second buffered single-row batch. -/
def c8_b2 : RecordBatch :=
  RecordBatch.mk (Schema.mk [Field.mk "a" DataType.int64 true]) [[CellValue.intVal 2]]

/-- SQL engine model that returns its registered input table unchanged. -/
def c8_engine : String → RecordBatch → List RecordBatch := fun _ b => [b]

/-- C8 counterexample: with two buffered batches the window flush passes
only the first batch to the query; combine_batches is not the
concatenation the claim describes. -/
theorem sql_transform_drops_buffered_batches :
    combine_batches c8_transform [c8_b1, c8_b2] = c8_b1 ∧
    combine_batches c8_transform [c8_b1, c8_b2]
      ≠ concat_batches_spec c8_transform [c8_b1, c8_b2] ∧
    sql_transform_step c8_engine c8_transform [c8_b1] (TxMessage.batch c8_b2)
      = ([], [TxMessage.batch c8_b1]) ∧
    concat_batches_spec c8_transform [c8_b1, c8_b2]
      = RecordBatch.mk (Schema.mk [Field.mk "a" DataType.int64 true])
          [[CellValue.intVal 1, CellValue.intVal 2]] := by
  refine ⟨rfl, by decide, rfl, rfl⟩

/-- C8 amended: batches are buffered until the window fills or a
Watermark or Eos arrives; at that point exactly one result batch is
emitted, computed by the query over combine_batches of the buffer, and
the buffer is flushed — but combine_batches returns only the first
buffered batch when more than one is buffered, not their concatenation. -/
theorem sql_transform_windowing
    (sqlEngine : String → RecordBatch → List RecordBatch) (t : SqlTransform)
    (buffer : List RecordBatch) (b : RecordBatch) (w : Int) :
    ((buffer ++ [b]).length < t.window_size →
      sql_transform_step sqlEngine t buffer (TxMessage.batch b) = (buffer ++ [b], [])) ∧
    (t.window_size ≤ (buffer ++ [b]).length →
      sql_transform_step sqlEngine t buffer (TxMessage.batch b)
        = ([], [TxMessage.batch
            (execute_sql_query sqlEngine t (combine_batches t (buffer ++ [b])))])) ∧
    (buffer ≠ [] →
      sql_transform_step sqlEngine t buffer (TxMessage.watermark w)
        = ([], [TxMessage.batch (execute_sql_query sqlEngine t (combine_batches t buffer)),
                TxMessage.watermark w]) ∧
      sql_transform_step sqlEngine t buffer TxMessage.eos
        = (buffer, [TxMessage.batch (execute_sql_query sqlEngine t (combine_batches t buffer)),
                    TxMessage.eos])) ∧
    (sql_transform_step sqlEngine t [] (TxMessage.watermark w) = ([], [TxMessage.watermark w]) ∧
     sql_transform_step sqlEngine t [] TxMessage.eos = ([], [TxMessage.eos])) ∧
    (∀ b1 b2 rest, combine_batches t (b1 :: b2 :: rest) = b1) := by
  refine ⟨?_, ?_, ?_, ⟨rfl, rfl⟩, fun b1 b2 rest => rfl⟩
  · intro h
    have h2 : ¬ (t.window_size ≤ buffer.length + 1) := by
      simpa using Nat.not_le.mpr h
    simp [sql_transform_step, h2]
  · intro h
    have h2 : t.window_size ≤ buffer.length + 1 := by simpa using h
    simp [sql_transform_step, h2]
  · intro h
    have hne : buffer.isEmpty = false := by
      cases hb : buffer
      · exact absurd hb h
      · rfl
    constructor <;> simp [sql_transform_step, hne]

/-- Witness for C8: the windowing theorem applied at a concrete transform,
buffer, and engine. -/
theorem sql_transform_windowing_witness :
    sql_transform_step c8_engine c8_transform [] (TxMessage.batch c8_b1) = ([c8_b1], []) ∧
    sql_transform_step c8_engine c8_transform [c8_b1] (TxMessage.watermark 7)
      = ([], [TxMessage.batch
          (execute_sql_query c8_engine c8_transform (combine_batches c8_transform [c8_b1])),
          TxMessage.watermark 7]) ∧
    combine_batches c8_transform [c8_b1, c8_b2] = c8_b1 := by
  refine ⟨?_, ?_, ?_⟩
  · exact (sql_transform_windowing c8_engine c8_transform [] c8_b1 7).1 (by decide)
  · exact ((sql_transform_windowing c8_engine c8_transform [c8_b1] c8_b1 7).2.2.1
      (by decide)).1
  · exact (sql_transform_windowing c8_engine c8_transform [] c8_b1 7).2.2.2.2 c8_b1 c8_b2 []

/-- C9: a Kafka message without a payload is read as JSON null, a payload
parsing to JSON null stays JSON null, and for a JSON-null record the
source sends no batch downstream whatever the schema manager's state. -/
theorem null_records_emit_no_batch :
    parse_message none = Except.ok Json.null ∧
    parse_message (some (Except.ok Json.null)) = Except.ok Json.null ∧
    ∀ m : DynamicSchemaManager,
      kafka_source_step m Json.null
        = Except.ok ((update_schema_if_needed m Json.null).1, []) := by
  refine ⟨rfl, rfl, fun m => ?_⟩
  simp [kafka_source_step, parse_json_to_batch_dynamic, Json.isNull]

/-- A predicate false on every list element finds no index. -/
theorem findIdx?_eq_none_of_all {α : Type} (pred : α → Bool) :
    ∀ (l : List α) (i : Nat), (∀ x ∈ l, pred x = false) →
      List.findIdx? pred l i = none := by
  intro l
  induction l with
  | nil => intro i _; rfl
  | cons x rest ih =>
    intro i h
    simp only [List.findIdx?]
    rw [h x (List.mem_cons_self x rest)]
    simpa using ih (i + 1) (fun y hy => h y (List.mem_cons_of_mem x hy))

/-- C10: the Partition transform appends exactly the nullable utf8
partition_key and partition_date columns after the unchanged input
columns, and a partition_by entry naming no column of the batch
contributes the string unknown to the row's partition values. -/
theorem partition_appends_columns
    (p : Partition) (batch : RecordBatch) (today : String) :
    (add_partition_columns p batch today).schema.fields
      = batch.schema.fields ++ [Field.mk "partition_key" DataType.utf8 true,
                                Field.mk "partition_date" DataType.utf8 true] ∧
    (add_partition_columns p batch today).columns
      = batch.columns ++
          [(List.range (record_batch_num_rows batch)).map
             (fun row_idx => CellValue.strVal (generate_partition_key p batch row_idx)),
           (List.range (record_batch_num_rows batch)).map
             (fun _ => CellValue.strVal today)] ∧
    (∀ (row_idx i : Nat) (name : String), p.partition_by[i]? = some name →
      (∀ f ∈ batch.schema.fields, f.name ≠ name) →
      (partition_values p batch row_idx)[i]? = some "unknown") := by
  refine ⟨rfl, rfl, ?_⟩
  intro row_idx i name hname hnone
  have hfind : batch.schema.fields.findIdx? (fun f => f.name = name) = none := by
    apply findIdx?_eq_none_of_all
    intro f hf
    simp [hnone f hf]
  unfold partition_values
  rw [List.getElem?_map, hname]
  simp [hfind]

/-- Partition transform keyed by a field the batch does not have. -/
def c10_partition : Partition :=
  Partition.mk "part" (Schema.mk [Field.mk "a" DataType.int64 true]) ["missing"] ""

/-- One-row one-column batch fed to the Partition transform. -/
def c10_batch : RecordBatch :=
  RecordBatch.mk (Schema.mk [Field.mk "a" DataType.int64 true]) [[CellValue.intVal 1]]

/-- Witness for C10 at the concrete transform and batch. -/
theorem partition_appends_columns_witness :
    (add_partition_columns c10_partition c10_batch "2026-10-12").schema.fields
      = [Field.mk "a" DataType.int64 true, Field.mk "partition_key" DataType.utf8 true,
         Field.mk "partition_date" DataType.utf8 true] ∧
    (partition_values c10_partition c10_batch 0)[0]? = some "unknown" := by
  constructor
  · exact (partition_appends_columns c10_partition c10_batch "2026-10-12").1
  · exact (partition_appends_columns c10_partition c10_batch "2026-10-12").2.2 0 0
      "missing" rfl (by decide)

end Rde
